import Mathlib

/-!
Shallow embedding of the PasPages core (a Cloudflare-Workers CMS written in
TypeScript) for verifying its specification.

The embedding follows the source files:
  * `src/core/database.ts`   — `Database` (raw / findOne / findAll) and `Validator`
  * `src/core/registry.ts`   — `Registry` (templates, active theme, plugins,
                                translations, logs)
  * `src/core/view.ts`       — `ViewEngine.render`
  * `src/core/migrator.ts`   — `Migrator.applyMigration`
  * `src/admin/routes.ts`    — the migration sweep (`POST /admin/system/migrate`)
  * `src/index.ts`           — the homepage route (`GET /`)

JavaScript strings are modelled as `List Char` where character-level reasoning
is needed, and as `String` elsewhere.  JavaScript falsiness of a possibly
absent string (`undefined`, `null` and `""` are falsy) is modelled explicitly,
because several source functions branch on `||` / truthiness.
-/

-- ===========================================================================
-- JS string primitives
-- ===========================================================================

-- JS `s.split(sep)` for a single-character separator (used with `.` and `;`).
def splitOnCharAux (sep : Char) (c : Char) (acc : List (List Char)) : List (List Char) :=
  if c = sep then [] :: acc
  else
    match acc with
    | [] => [[c]]
    | g :: gs => (c :: g) :: gs

def splitOnChar (sep : Char) (l : List Char) : List (List Char) :=
  l.foldr (splitOnCharAux sep) [[]]

-- JS `s.trim()` (whitespace approximated by `Char.isWhitespace`).
def trimChars (l : List Char) : List Char :=
  ((l.dropWhile Char.isWhitespace).reverse.dropWhile Char.isWhitespace).reverse

-- JS truthiness coalescing `v || null` for a possibly absent string:
-- `undefined` and `""` both collapse to the not-found sentinel.
def jsTruthy : Option String → Option String
  | none => none
  | some s => if s = "" then none else some s

-- JS falsiness test `!v` for a possibly absent string field.
def jsFalsy : Option String → Bool
  | none => true
  | some s => s == ""

-- JS global literal replacement `s.replace(new RegExp(pat, "g"), rep)` for a
-- pattern without regex metacharacters: every non-overlapping occurrence of
-- `pat` is replaced left to right.  Implemented with explicit fuel so that it
-- is structurally recursive (hence computable by the kernel); `s.length` fuel
-- is always enough because every step consumes at least one character.
def replAux (pat rep : List Char) : Nat → List Char → List Char
  | 0, l => l
  | _ + 1, [] => []
  | fuel + 1, c :: rest =>
    if pat.isPrefixOf (c :: rest) then rep ++ replAux pat rep fuel (rest.drop (pat.length - 1))
    else c :: replAux pat rep fuel rest

def replaceAll (pat rep s : List Char) : List Char := replAux pat rep s.length s

-- JS first-occurrence replacement `s.replace(pat, rep)` for a string pattern.
-- (The `$`-escape handling JS applies inside `rep` is not modelled; no claim
-- depends on a replacement value containing a dollar sign on this code path.)
def replFirstAux (pat rep : List Char) : Nat → List Char → List Char
  | 0, l => l
  | _ + 1, [] => []
  | fuel + 1, c :: rest =>
    if pat.isPrefixOf (c :: rest) then rep ++ rest.drop (pat.length - 1)
    else c :: replFirstAux pat rep fuel rest

def replaceFirst (pat rep s : List Char) : List Char := replFirstAux pat rep s.length s

-- The template placeholder `{{key}}` as a character list (source: the
-- ViewEngine builds the pattern by wrapping the key in doubled braces).
def phPat (k : List Char) : List Char := '{' :: '{' :: (k ++ ['}', '}'])

-- JS `parseInt(s)` with no radix argument: skip leading whitespace, read an
-- optional sign, detect a `0x`/`0X` prefix (hex), then take the longest run
-- of digits of the radix; an empty run yields NaN (modelled as `none`).
def isRadixDigit (radix : Nat) (c : Char) : Bool :=
  if radix == 16 then c.isDigit || (('a' ≤ c && c ≤ 'f') || ('A' ≤ c && c ≤ 'F'))
  else c.isDigit

def hexDigitVal (c : Char) : Nat :=
  if c.isDigit then c.toNat - '0'.toNat
  else if 'a' ≤ c && c ≤ 'f' then c.toNat - 'a'.toNat + 10
  else if 'A' ≤ c && c ≤ 'F' then c.toNat - 'A'.toNat + 10
  else 0

def digitsVal (radix : Nat) (l : List Char) : Nat :=
  l.foldl (fun acc c => acc * radix + hexDigitVal c) 0

def parseIntJS (s : String) : Option Int :=
  let l := s.data.dropWhile Char.isWhitespace
  let sgn : Int := match l with
    | '-' :: _ => -1
    | _ => 1
  let l1 := match l with
    | '-' :: rest => rest
    | '+' :: rest => rest
    | _ => l
  let p := match l1 with
    | '0' :: 'x' :: rest => (16, rest)
    | '0' :: 'X' :: rest => (16, rest)
    | _ => (10, l1)
  let digits := p.2.takeWhile (isRadixDigit p.1)
  if digits = [] then none
  else some (sgn * Int.ofNat (digitsVal p.1 digits))

-- First-match association lookup in a list of (key, value) pairs.
def bagLookup (bag : List (String × String)) (k : String) : Option String :=
  (bag.find? (fun kv => kv.1 == k)).map (fun kv => kv.2)

-- JS object-literal / spread semantics: inserting a key keeps the position of
-- an existing key (overwriting its value) and appends a fresh key at the end.
def upsert (m : List (String × String)) (k v : String) : List (String × String) :=
  if m.any (fun kv => kv.1 == k) then m.map (fun kv => if kv.1 == k then (kv.1, v) else kv)
  else m ++ [(k, v)]

def objOf (l : List (String × String)) : List (String × String) :=
  l.foldl (fun m kv => upsert m kv.1 kv.2) []

-- ===========================================================================
-- Validator  (src/core/database.ts, second section)
-- ===========================================================================

-- `CONFIG.CORE_VERSION` from `hono.config.ts`.
def CORE_VERSION : String := "1.0.0"

-- A module manifest as the validator sees it.  Fields are `Option` because a
-- JS object may lack any of them (`undefined`).
structure ManifestJS where
  slug : Option String
  version : Option String
  type : Option String
  requires : Option String
deriving DecidableEq

structure ValidationResult where
  isValid : Bool
  error : Option String
deriving DecidableEq

-- `manifest.slug || "unknown"` used inside an error message.
def orUnknown : Option String → String
  | none => "unknown"
  | some s => if s = "" then "unknown" else s

-- The leading dot-separated component: `s.split(".")[0]`.
def firstComp (s : String) : String :=
  String.mk ((splitOnChar '.' s.data).headD [])

-- `Validator.isCompatible`, generalised over the configured core version
-- (the source reads the global `CONFIG.CORE_VERSION`): parse the major
-- component of both versions with `parseInt` and compare with `===`
-- (`NaN === x` is false, so any parse failure yields `false`).
def Validator.isCompatibleWith (core required : String) : Bool :=
  match parseIntJS (firstComp core), parseIntJS (firstComp required) with
  | some a, some b => a == b
  | _, _ => false

def Validator.isCompatible (required : String) : Bool :=
  Validator.isCompatibleWith CORE_VERSION required

-- `Validator.validate(module, type)`.  A `none` argument models both a null
-- module and a module without a `manifest` field (the source rejects the two
-- with the same error).  The checks appear in source order.
def Validator.validate (mod : Option ManifestJS) (type : String) : ValidationResult :=
  match mod with
  | none => ⟨false, some "Manifest is missing or module is undefined"⟩
  | some m =>
    if jsFalsy m.slug || jsFalsy m.version then
      ⟨false, some ("Invalid manifest structure in " ++ orUnknown m.slug)⟩
    else if m.type ≠ some type then
      ⟨false, some ("Type mismatch for " ++ orUnknown m.slug ++ ". Expected " ++ type ++ ", got " ++ (match m.type with | some t => t | none => "undefined"))⟩
    else if jsFalsy m.requires then
      ⟨false, some ("STRICT MODE: Module " ++ orUnknown m.slug ++ " MUST define \x27requires\x27 version.")⟩
    else if !Validator.isCompatible (m.requires.getD "") then
      ⟨false, some ("Incompatible Version. " ++ orUnknown m.slug ++ " requires v" ++ m.requires.getD "" ++ ", Core is v" ++ CORE_VERSION)⟩
    else ⟨true, none⟩

-- ===========================================================================
-- Registry  (src/core/registry.ts)
-- ===========================================================================

-- The Registry state (the mutable static fields of the `Registry` class that
-- the claims touch).  The template table and the per-locale translation
-- tables are modelled as partial maps.
structure RegistryState where
  templates : String → Option String
  activeTheme : String
  pluginList : List String
  translations : String → Option (String → Option String)
  logs : List String

-- The initial static state: empty tables, active theme `nebula`, and the
-- translation table pre-seeded with empty `en` and `id` locales.
def Registry.init : RegistryState where
  templates := fun _ => none
  activeTheme := "nebula"
  pluginList := []
  translations := fun l => if l = "en" || l = "id" then some (fun _ => none) else none
  logs := []

-- `Registry.log(message)`: appends one line stamped with the wall-clock time
-- truncated to whole seconds.  The formatted `HH:MM:SS` stamp is passed in as
-- `now` (the source reads `new Date()`).
def Registry.log (now msg : String) (st : RegistryState) : RegistryState :=
  { st with logs := st.logs ++ ["[" ++ now ++ "] " ++ msg] }

def Registry.getLogs (st : RegistryState) : List String := st.logs

-- Write one key of the template table.
def Registry.setTemplate (st : RegistryState) (key value : String) : RegistryState :=
  { st with templates := fun q => if q = key then some value else st.templates q }

-- `Registry.getThemeView(theme, view)`: `templates[theme + ":" + view] || null`.
def Registry.getThemeView (st : RegistryState) (theme view : String) : Option String :=
  jsTruthy (st.templates (theme ++ ":" ++ view))

-- `Registry.registerThemeView(theme, view, html)`: store under the
-- theme-scoped key, and for the view name `landing` additionally store under
-- the bare alias key `landing`.
def Registry.registerThemeView (theme view html : String) (st : RegistryState) : RegistryState :=
  let st1 := Registry.setTemplate st (theme ++ ":" ++ view) html
  if view = "landing" then Registry.setTemplate st1 "landing" html else st1

-- `Registry.registerView(name, html)`.
def Registry.registerView (name html : String) (st : RegistryState) : RegistryState :=
  Registry.setTemplate st name html

-- `Registry.getView(view)`: try the `activeTheme:view` key first (truthiness
-- test), then fall back to `templates[view] || null`.
def Registry.getView (st : RegistryState) (view : String) : Option String :=
  match jsTruthy (st.templates (st.activeTheme ++ ":" ++ view)) with
  | some t => some t
  | none => jsTruthy (st.templates view)

-- `Registry.setActiveTheme(name)` (also logs the switch).
def Registry.setActiveTheme (now name : String) (st : RegistryState) : RegistryState :=
  Registry.log now ("Theme switched to: " ++ name) { st with activeTheme := name }

def Registry.getActiveThemeName (st : RegistryState) : String := st.activeTheme

-- `Registry.registerPlugin(name)`: deduplicated append (logs on first add).
def Registry.registerPlugin (now name : String) (st : RegistryState) : RegistryState :=
  if st.pluginList.contains name then st
  else Registry.log now ("Plugin mounted: " ++ name) { st with pluginList := st.pluginList ++ [name] }

def Registry.getPluginCount (st : RegistryState) : Nat := st.pluginList.length

-- `Registry.registerTranslation(locale, data)`: create the locale table if
-- missing, then spread-merge `data` over it (later keys of `data` win, and
-- keys of `data` win over existing keys).  `data` is the entry list of the
-- JS object argument, in insertion order.
def Registry.registerTranslation (locale : String) (data : List (String × String)) (st : RegistryState) : RegistryState :=
  let base : String → Option String :=
    match st.translations locale with
    | some t => t
    | none => fun _ => none
  let merged := data.foldl (fun t kv => fun q => if q = kv.1 then some kv.2 else t q) base
  { st with translations := fun l => if l = locale then some merged else st.translations l }

-- `Registry.getTranslation(locale, key)`: `translations[locale]?.[key] || null`.
def Registry.getTranslation (st : RegistryState) (locale key : String) : Option String :=
  jsTruthy (match st.translations locale with
    | some t => t key
    | none => none)

-- ===========================================================================
-- ViewEngine  (src/core/view.ts)
-- ===========================================================================

-- The observable outcome of a request handler: an HTML response with a
-- status code, or a redirect.
inductive RouteResult where
  | html (status : Nat) (body : String)
  | redirect (location : String)
deriving DecidableEq

-- `{ ...data, theme_name: ..., year: ... }`: the two always-present fields
-- are spread last, so they overwrite data entries of the same name.  The
-- year is `new Date().getFullYear()`, passed in as a parameter and
-- stringified exactly as `String(...)` does for a number.
def ViewEngine.finalData (data : List (String × String)) (themeName : String) (year : Nat) : List (String × String) :=
  upsert (upsert (objOf data) "theme_name" themeName) "year" (toString year)

-- The substitution loop: for each key of the merged bag, in object key
-- order, globally replace the `{{key}}` placeholder by the value.
def ViewEngine.renderTemplate (bag : List (String × String)) (tpl : List Char) : List Char :=
  bag.foldl (fun acc kv => replaceAll (phPat kv.1.data) kv.2.data acc) tpl

-- `ViewEngine.render(c, viewName, data)`: resolve the view through the
-- Registry; on a miss answer a labelled 500 naming the view and the active
-- theme; otherwise substitute and answer 200.
def ViewEngine.render (st : RegistryState) (viewName : String) (data : List (String × String)) (year : Nat) : RouteResult :=
  match Registry.getView st viewName with
  | none =>
    RouteResult.html 500 ("<h1>Error: View \x27" ++ viewName ++ "\x27 not found in \x27" ++ Registry.getActiveThemeName st ++ "\x27</h1>")
  | some template =>
    RouteResult.html 200 (String.mk (ViewEngine.renderTemplate (ViewEngine.finalData data (Registry.getActiveThemeName st) year) template.data))

-- ===========================================================================
-- Database  (src/core/database.ts)
-- ===========================================================================

-- `Database.splitStatements(sql)`: split on `;`, trim, drop empty fragments.
def Database.splitStatements (sql : String) : List String :=
  (((splitOnChar ';' sql.data).map (fun l => String.mk (trimChars l))).filter (fun s => s ≠ ""))

-- Result shape of `Database.raw`.  The early return for blank input carries
-- no `success` field at all (JS `undefined`), which is modelled as `none`;
-- the other paths set it to `some true` / `some false`.
structure RawResult where
  count : Nat
  duration : Nat
  success : Option Bool
  error : Option String
deriving DecidableEq

-- The persistent side of the store that the Migrator observes: the
-- `_migrations` ledger rows (slug, version) and the ordered list of schema
-- statements handed to the D1 engine for execution.  The model assumes the
-- ledger table exists (i.e. `Migrator.initSystem` has run).
structure Store where
  ledger : List (String × String)
  execLog : List String
deriving DecidableEq

-- Deterministic behaviour of the external D1 engine: whether executing a
-- given statement batch succeeds, its reported duration, the error message
-- of a failed batch, and whether the ledger INSERT (`Database.run`) succeeds.
structure StoreBehavior where
  execOk : List String → Bool
  execDur : List String → Nat
  execErr : List String → String
  insertOk : Bool

-- `Database.raw(sql)`: blank input returns `{count: 0, duration: 0}` without
-- touching the store; otherwise the split statements are executed as a batch
-- (a single statement via `exec`, several via `batch` — both report success
-- and a count equal to the number of statements) and any exception is caught
-- and converted into `{success: false, error}`.  On failure the statements
-- the engine attempted are still recorded in the execution log.
def Database.raw (b : StoreBehavior) (st : Store) (sql : String) : RawResult × Store :=
  if trimChars sql.data = [] then (⟨0, 0, none, none⟩, st)
  else if b.execOk (Database.splitStatements sql) then
    (⟨(Database.splitStatements sql).length, b.execDur (Database.splitStatements sql), some true, none⟩,
      { st with execLog := st.execLog ++ Database.splitStatements sql })
  else
    (⟨0, 0, some false, some (b.execErr (Database.splitStatements sql))⟩,
      { st with execLog := st.execLog ++ Database.splitStatements sql })

-- `Database.findOne` / `Database.findAll`: the underlying D1 call either
-- yields a value or throws (`Except.error`); the wrapper catches every
-- exception and returns the not-found sentinel.
def Database.findOne {α : Type} (raw : Except String (Option α)) : Option α :=
  match raw with
  | .ok r => r
  | .error _ => none

def Database.findAll {α : Type} (raw : Except String (List α)) : List α :=
  match raw with
  | .ok l => l
  | .error _ => []

-- ===========================================================================
-- Migrator  (src/core/migrator.ts)
-- ===========================================================================

-- The outcome string of `applyMigration`, by leading tag:
--   success s v d  ↦ "[SUCCESS] s v‹v› applied in ‹d›ms"
--   skip s v       ↦ "[SKIP] s v‹v› is already applied."
--   sqlError s v m ↦ "[ERROR] SQL Execution failed for s v‹v›: m"
--   fatal s m      ↦ "[ERROR] Fatal failure for s: m"  (caught exception)
inductive MigOutcome where
  | success (slug version : String) (duration : Nat)
  | skip (slug version : String)
  | sqlError (slug version msg : String)
  | fatal (slug msg : String)
deriving DecidableEq

def MigOutcome.isSuccess : MigOutcome → Bool
  | .success _ _ _ => true
  | _ => false

def MigOutcome.isError : MigOutcome → Bool
  | .sqlError _ _ _ => true
  | .fatal _ _ => true
  | _ => false

-- `Migrator.applyMigration(slug, version, sql)`:
--   1. `findOne` on the ledger (never throws; with the ledger table present
--      it reports whether the (slug, version) row exists);
--   2. if present, SKIP;
--   3. otherwise `Database.raw(sql)`; a reported `success === false` yields
--      an ERROR outcome with the reported message (`|| "Unknown error"`);
--   4. otherwise INSERT the pair into the ledger (`Database.run`, which can
--      throw — modelled by `insertOk`; the surrounding catch turns that into
--      the fatal ERROR outcome) and report SUCCESS with the duration.
def Migrator.applyMigration (b : StoreBehavior) (st : Store) (slug version sql : String) : MigOutcome × Store :=
  if st.ledger.contains (slug, version) then (.skip slug version, st)
  else if (Database.raw b st sql).1.success = some false then
    (.sqlError slug version ((Database.raw b st sql).1.error.getD "Unknown error"), (Database.raw b st sql).2)
  else if b.insertOk then
    (.success slug version (Database.raw b st sql).1.duration,
      { (Database.raw b st sql).2 with ledger := (Database.raw b st sql).2.ledger ++ [(slug, version)] })
  else
    (.fatal slug "Database run error", (Database.raw b st sql).2)

-- The admin migration sweep (`POST /admin/system/migrate`), after
-- `initSystem` has succeeded: iterate every registered schema in order and
-- collect one outcome per schema (the HTML span colouring around each line
-- is presentation only and not modelled).
def Migrator.sweep (b : StoreBehavior) (st : Store) (schemas : List (String × String × String)) : List MigOutcome × Store :=
  schemas.foldl
    (fun acc s =>
      let r := Migrator.applyMigration b acc.2 s.1 s.2.1 s.2.2
      (acc.1 ++ [r.1], r.2))
    ([], st)

-- ===========================================================================
-- Homepage route  (src/index.ts, `app.get("/")`)
-- ===========================================================================

structure SettingsRow where
  value : String
deriving DecidableEq

structure PageRow where
  title : String
  content : String
  slug : String
deriving DecidableEq

-- The two settings queries and the page query issued by the root route.
def qHomeType : String := "SELECT value FROM core_settings WHERE key = \x27homepage_type\x27"
def qHomeTarget : String := "SELECT value FROM core_settings WHERE key = \x27homepage_target_id\x27"
def qStaticPage : String := "SELECT * FROM static_pages WHERE id = ?"

-- The external persistence read path as the root route sees it: each query
-- either returns a row (or no row) or throws.  The settings reads are keyed
-- by their full query text; the page read is keyed by the bound target id.
structure DbOracle where
  settingRaw : String → Except String (Option SettingsRow)
  pageRaw : String → Except String (Option PageRow)

structure RootResult where
  res : RouteResult
  reg : RegistryState
  queries : List (String × List String)

-- The inline fallback markup used when the `public_page` template is not
-- registered (pages plugin absent).
def fallbackPageHtml (page : PageRow) : String :=
  "<!DOCTYPE html><html><head><title>" ++ page.title ++
  "</title><script src=\"https://cdn.tailwindcss.com\"></script></head><body class=\"p-10 prose max-w-none\"><h1>" ++
  page.title ++ "</h1><div>" ++ page.content ++ "</div></body></html>"

-- The page branch: resolve `public_page` (falling back to the inline
-- markup), then chain three single-occurrence replacements.
def renderPageBody (st : RegistryState) (page : PageRow) : String :=
  let template :=
    match Registry.getView st "public_page" with
    | some t => t
    | none => fallbackPageHtml page
  String.mk
    (replaceFirst (phPat "slug".data) page.slug.data
      (replaceFirst (phPat "content".data) page.content.data
        (replaceFirst (phPat "title".data) page.title.data template.data)))

-- The data bag of the default landing render (object-literal key order).
-- `String(...)` of the log array joins its lines with commas.
def landingData (st : RegistryState) : List (String × String) :=
  [("plugin_count", toString (Registry.getPluginCount st)),
   ("core_version", CORE_VERSION),
   ("system_logs", String.intercalate "," (Registry.getLogs st)),
   ("status", "System Ready - Please configure Homepage in Admin")]

-- State D, the default landing fallback (the catch branch): log the fallback
-- event, then render the `landing` view.  It touches only the in-memory
-- Registry — no database query is issued.
def stateD (reg : RegistryState) (now : String) (year : Nat) (qs : List (String × List String)) : RootResult :=
  let reg1 := Registry.log now "System Status: Rendering Default Landing Page." reg
  ⟨ViewEngine.render reg1 "landing" (landingData reg1) year, reg1, qs⟩

-- `app.get("/")`: read the two settings (via the catching `findOne`),
-- compute `homeType` with the `|| "default"` coalescing, then branch:
-- "blog" redirects, "page" with a truthy target id attempts the page read
-- and renders the page if found, and every other path (including a missing
-- or failed read, and a missing page row) funnels into State D.
def rootHandler (o : DbOracle) (reg : RegistryState) (now : String) (year : Nat) : RootResult :=
  let tRow := Database.findOne (o.settingRaw qHomeType)
  let gRow := Database.findOne (o.settingRaw qHomeTarget)
  let q0 := [(qHomeType, ([] : List String)), (qHomeTarget, [])]
  let homeType :=
    match tRow with
    | some r => if r.value = "" then "default" else r.value
    | none => "default"
  if homeType = "blog" then ⟨RouteResult.redirect "/blog", reg, q0⟩
  else
    let targetTruthy : Bool :=
      match gRow with
      | some r => r.value != ""
      | none => false
    if homeType == "page" && targetTruthy then
      let target := (gRow.map (fun r => r.value)).getD ""
      match Database.findOne (o.pageRaw target) with
      | some page => ⟨RouteResult.html 200 (renderPageBody reg page), reg, q0 ++ [(qStaticPage, [target])]⟩
      | none => stateD reg now year (q0 ++ [(qStaticPage, [target])])
    else stateD reg now year q0

-- ===========================================================================
-- Template decomposition (for stating the substitution behaviour of
-- `ViewEngine.render`)
-- ===========================================================================

-- A template seen as an alternation of literal text and `{{key}}`
-- placeholders.
inductive TPart where
  | lit (s : String)
  | ph (k : String)
deriving DecidableEq

def TPart.assemble : List TPart → List Char
  | [] => []
  | .lit s :: rest => s.data ++ TPart.assemble rest
  | .ph k :: rest => phPat k.data ++ TPart.assemble rest

-- Brace-free text: a literal segment or placeholder key that cannot create
-- or extend a placeholder boundary.
def plainStr (s : String) : Bool :=
  s.data.all (fun c => c != '{' && c != '}')

-- A substitution value that is inserted verbatim by the JS `replace` call:
-- free of braces (no re-injected placeholder) and of `$` (no replacement
-- escape sequence).
def plainVal (s : String) : Bool :=
  s.data.all (fun c => c != '{' && c != '}' && c != '$')

-- A data-bag key for which the source behaves like literal, insertion-order
-- substitution: nonempty, made of word characters (so the built regex
-- matches it literally), and not an integer-index key (so JS object key
-- enumeration keeps insertion order).
def ordinaryKey (s : String) : Bool :=
  s != "" && s.data.all (fun c => c.isAlphanum || c == '_') && s.data.any (fun c => !c.isDigit)

def partWF : TPart → Bool
  | .lit s => plainStr s
  | .ph k => plainStr k

def PartsWF (parts : List TPart) : Bool :=
  parts.all partWF

def bagWF (bag : List (String × String)) : Bool :=
  bag.all (fun kv => ordinaryKey kv.1 && plainVal kv.2)

-- One substitution pass for a single key.
def TPart.substOne (k v : String) : TPart → TPart
  | .lit s => .lit s
  | .ph k2 => if k2 = k then .lit v else .ph k2

-- The cumulative effect of substituting a whole bag: each placeholder whose
-- key has a binding in the bag becomes that (first) binding, and every other
-- placeholder stays verbatim.
def TPart.subst (bag : List (String × String)) : TPart → TPart
  | .lit s => .lit s
  | .ph k =>
    match bagLookup bag k with
    | some v => .lit v
    | none => .ph k

-- ===========================================================================
-- Concrete store behaviours (used to instantiate migration theorems)
-- ===========================================================================

def StoreBehavior.alwaysOk : StoreBehavior :=
  ⟨fun _ => true, fun _ => 0, fun _ => "", true⟩

def StoreBehavior.alwaysFail : StoreBehavior :=
  ⟨fun _ => false, fun _ => 0, fun _ => "no such table", true⟩

-- ===========================================================================
-- Theorems
-- ===========================================================================

/-- Claim C3: a module whose manifest lacks the `requires` field is rejected
by `Validator.validate` regardless of every other field, and the rejection is
delivered as a result value (an `isValid = false` record carrying an error
message) — the function is total, so no exception can escape. -/
theorem validate_missing_requires (m : ManifestJS) (t : String) (h : m.requires = none) :
    (Validator.validate (some m) t).isValid = false ∧
    ((Validator.validate (some m) t).error).isSome = true := by
  have hreq : jsFalsy m.requires = true := by rw [h]; rfl
  simp only [Validator.validate]
  split_ifs <;> simp_all

-- Witness for C3: a fully well-formed plugin manifest with `requires` absent.
theorem validate_missing_requires_witness :
    (Validator.validate (some ⟨some "shop-core", some "1.0.0", some "plugin", none⟩) "plugin").isValid = false :=
  (validate_missing_requires ⟨some "shop-core", some "1.0.0", some "plugin", none⟩ "plugin" rfl).1

/-- Claim C4: `Validator.isCompatible` admits a requirement exactly when the
`parseInt` of its leading dot-component equals the `parseInt` of the leading
dot-component of the configured core version (minor and patch parts are never
inspected), and a requirement whose leading component does not parse to a
number is rejected (the `NaN === x` comparison fails closed).  With a core
version of `1.3.2`, requirements `1.0.0` and `1.9.9` are admitted and `2.0.0`
is rejected; with the configured core version `1.0.0`, `1.7.4` is admitted
and `2.0.0` rejected. -/
theorem isCompatible_major_match :
    (∀ core required : String,
      Validator.isCompatibleWith core required = true ↔
        ∃ m : Int, parseIntJS (firstComp core) = some m ∧ parseIntJS (firstComp required) = some m) ∧
    (∀ required : String, Validator.isCompatible required = Validator.isCompatibleWith CORE_VERSION required) ∧
    Validator.isCompatibleWith "1.3.2" "1.0.0" = true ∧
    Validator.isCompatibleWith "1.3.2" "1.9.9" = true ∧
    Validator.isCompatibleWith "1.3.2" "2.0.0" = false ∧
    Validator.isCompatibleWith "1.3.2" "v2.beta" = false ∧
    Validator.isCompatible "1.7.4" = true ∧
    Validator.isCompatible "2.0.0" = false := by
  refine ⟨?_, fun _ => rfl, by decide, by decide, by decide, by decide, by decide, by decide⟩
  intro core required
  unfold Validator.isCompatibleWith
  cases hc : parseIntJS (firstComp core) with
  | none => simp [hc]
  | some a =>
    cases hr : parseIntJS (firstComp required) with
    | none => simp [hc, hr]
    | some b =>
      simp only [hc, hr]
      constructor
      · intro hab
        have hab2 : a = b := by simpa using hab
        exact ⟨a, rfl, by rw [hab2]⟩
      · rintro ⟨m, hm1, hm2⟩
        simp_all

/-- Claim C9: `Registry.registerThemeView(theme, view, html)` writes the
theme-scoped key `theme:view`; when the view name is `landing` it also
overwrites the bare `landing` alias with the same markup; every other
template entry and every other Registry table is left unchanged. -/
theorem registerThemeView_writes (theme view html : String) (st : RegistryState) :
    (Registry.registerThemeView theme view html st).templates (theme ++ ":" ++ view) = some html ∧
    (view = "landing" → (Registry.registerThemeView theme view html st).templates "landing" = some html) ∧
    (∀ k, k ≠ theme ++ ":" ++ view → ¬(view = "landing" ∧ k = "landing") →
      (Registry.registerThemeView theme view html st).templates k = st.templates k) ∧
    (Registry.registerThemeView theme view html st).activeTheme = st.activeTheme ∧
    (Registry.registerThemeView theme view html st).pluginList = st.pluginList ∧
    (Registry.registerThemeView theme view html st).translations = st.translations ∧
    (Registry.registerThemeView theme view html st).logs = st.logs := by
  unfold Registry.registerThemeView Registry.setTemplate
  split_ifs with hv
  · subst hv
    refine ⟨?_, fun _ => by simp, ?_, rfl, rfl, rfl, rfl⟩
    · by_cases hsc : theme ++ ":" ++ "landing" = "landing" <;> simp [hsc]
    · intro k hk1 hk2
      have hk3 : k ≠ "landing" := fun hh => hk2 ⟨rfl, hh⟩
      simp [hk1, hk3]
  · refine ⟨by simp, fun h => absurd h hv, ?_, rfl, rfl, rfl, rfl⟩
    intro k hk1 _
    simp [hk1]

-- Witness for C9: registering a non-landing view leaves the bare `landing`
-- alias untouched, while registering a landing view sets it.
theorem registerThemeView_writes_witness :
    (Registry.registerThemeView "nebula-theme" "landing" "<main>L</main>" Registry.init).templates "landing" = some "<main>L</main>" ∧
    (Registry.registerThemeView "nebula-theme" "blog_index" "<ul></ul>" Registry.init).templates "landing" = none :=
  ⟨(registerThemeView_writes "nebula-theme" "landing" "<main>L</main>" Registry.init).2.1 rfl,
   (registerThemeView_writes "nebula-theme" "blog_index" "<ul></ul>" Registry.init).2.2.1 "landing"
     (by decide) (fun h => by exact absurd h.1 (by decide))⟩

/-- Claim C5 (counterexample): the claim says `getView` falls back to the
bare entry only when the theme-scoped entry is absent.  Registering the
empty string under the theme-scoped key `nebula:landing` (and `X` under the
bare key) gives a state in which the theme-scoped entry is present, yet
`getView "landing"` bypasses it — the source tests JS truthiness, and `""` is
falsy — and answers the bare entry instead. -/
theorem getView_claim_counterexample :
    (Registry.registerView "landing" "X" (Registry.registerThemeView "nebula" "landing" "" Registry.init)).templates ("nebula" ++ ":" ++ "landing") = some "" ∧
    Registry.getView (Registry.registerView "landing" "X" (Registry.registerThemeView "nebula" "landing" "" Registry.init)) "landing" = some "X" ∧
    some "X" ≠ (some "" : Option String) := by
  refine ⟨rfl, rfl, by decide⟩

/-- Claim C5 (amended): `Registry.getView` first consults the template keyed
`(activeTheme, viewName)` and answers it when it is present and nonempty; if
that entry is absent or empty it falls back to the bare `viewName` entry when
that one is present and nonempty; otherwise it answers the not-found sentinel
`null`.  In particular, after registering a template under
`(themeA, "landing")` and a bare `"landing"` alias and then switching the
active theme to `themeB` (which has no `(themeB, "landing")` entry),
`getView "landing"` resolves to the bare alias entry. -/
theorem getView_precedence (st : RegistryState) (v : String) :
    (∀ t, st.templates (st.activeTheme ++ ":" ++ v) = some t → t ≠ "" → Registry.getView st v = some t) ∧
    (jsTruthy (st.templates (st.activeTheme ++ ":" ++ v)) = none →
      ∀ t, st.templates v = some t → t ≠ "" → Registry.getView st v = some t) ∧
    (jsTruthy (st.templates (st.activeTheme ++ ":" ++ v)) = none →
      jsTruthy (st.templates v) = none → Registry.getView st v = none) ∧
    Registry.getView
      (Registry.setActiveTheme "12:00:00" "themeB"
        (Registry.registerView "landing" "B"
          (Registry.registerThemeView "themeA" "landing" "A" Registry.init))) "landing" = some "B" := by
  refine ⟨?_, ?_, ?_, by rfl⟩
  · intro t ht hne
    unfold Registry.getView
    rw [ht]
    simp [jsTruthy, hne]
  · intro hsc t ht hne
    unfold Registry.getView
    rw [hsc, ht]
    simp [jsTruthy, hne]
  · intro hsc hb
    unfold Registry.getView
    rw [hsc, hb]

-- Witness for C5 (amended): a state whose theme-scoped entry is present and
-- nonempty resolves to it.
theorem getView_precedence_witness :
    Registry.getView (Registry.registerThemeView "nebula" "blog_index" "<ul></ul>" Registry.init) "blog_index" = some "<ul></ul>" :=
  (getView_precedence (Registry.registerThemeView "nebula" "blog_index" "<ul></ul>" Registry.init) "blog_index").1
    "<ul></ul>" rfl (by decide)

/-- Claim C7 (counterexample): the claim says the second registration makes
`getTranslation` return the newly registered value for every value.  With
`V2 = ""` the merged table does store `""`, but `getTranslation` coalesces
the falsy value to the not-found sentinel `null`, so the lookup does not
return `V2`. -/
theorem registerTranslation_claim_counterexample :
    Registry.getTranslation
      (Registry.registerTranslation "en" [("k", "")]
        (Registry.registerTranslation "en" [("k", "v1")] Registry.init)) "en" "k" = none ∧
    (none : Option String) ≠ some "" := by
  refine ⟨rfl, by decide⟩

/-- Claim C7 (amended): for every locale `L`, key `K` and values `V1`, `V2`
with `V2` nonempty, `registerTranslation(L, {K: V1})` followed by
`registerTranslation(L, {K: V2})` makes `getTranslation(L, K)` return `V2`
(last write wins; an empty-string `V2` is stored but reported as the
not-found sentinel because `getTranslation` coalesces falsy values), while
the lookup of every other key under `L` is exactly as it was after the first
registration — a later registration never erases keys it does not mention. -/
theorem registerTranslation_last_write_wins (L K V1 V2 : String) (st : RegistryState) (h2 : V2 ≠ "") :
    Registry.getTranslation
      (Registry.registerTranslation L [(K, V2)] (Registry.registerTranslation L [(K, V1)] st)) L K = some V2 ∧
    (∀ K2, K2 ≠ K →
      Registry.getTranslation
        (Registry.registerTranslation L [(K, V2)] (Registry.registerTranslation L [(K, V1)] st)) L K2 =
      Registry.getTranslation (Registry.registerTranslation L [(K, V1)] st) L K2) := by
  constructor
  · unfold Registry.getTranslation Registry.registerTranslation
    simp [jsTruthy, h2]
  · intro K2 hK2
    unfold Registry.getTranslation Registry.registerTranslation
    simp [hK2]

-- Witness for C7 (amended): two registrations of the same key under `en`,
-- plus an unrelated key surviving.
theorem registerTranslation_last_write_wins_witness :
    Registry.getTranslation
      (Registry.registerTranslation "en" [("welcome", "Hello v2")]
        (Registry.registerTranslation "en" [("welcome", "Hello v1")] Registry.init)) "en" "welcome" = some "Hello v2" :=
  (registerTranslation_last_write_wins "en" "welcome" "Hello v1" "Hello v2" Registry.init (by decide)).1


-- --- Helper lemmas for the Migrator claims ---

theorem trimChars_eq_nil_all_ws {l : List Char} (h : trimChars l = []) :
    ∀ c ∈ l, c.isWhitespace := by
  unfold trimChars at h
  rw [List.reverse_eq_nil_iff, List.dropWhile_eq_nil_iff] at h
  have h2 : ∀ x ∈ l.dropWhile Char.isWhitespace, x.isWhitespace := by
    intro x hx
    exact h x (List.mem_reverse.mpr hx)
  intro c hc
  rcases List.mem_append.mp ((List.takeWhile_append_dropWhile (p := Char.isWhitespace) (l := l)) ▸ hc) with h1 | h3
  · exact List.mem_takeWhile_imp h1
  · exact h2 c h3

theorem splitOnChar_no_sep {sep : Char} {l : List Char} (h : ∀ c ∈ l, c ≠ sep) :
    splitOnChar sep l = [l] := by
  induction l with
  | nil => rfl
  | cons c rest ih =>
    have hc : c ≠ sep := h c (by simp)
    have hrest := ih (fun x hx => h x (by simp [hx]))
    simp [splitOnChar] at hrest ⊢
    rw [hrest]
    simp [splitOnCharAux, hc]

theorem splitStatements_blank {sql : String} (h : trimChars sql.data = []) :
    Database.splitStatements sql = [] := by
  have hws := trimChars_eq_nil_all_ws h
  have hns : ∀ c ∈ sql.data, c ≠ ';' := by
    intro c hc he
    have hw := hws c hc
    rw [he] at hw
    exact absurd hw (by decide)
  unfold Database.splitStatements
  rw [splitOnChar_no_sep hns]
  simp [h]

theorem raw_ledger_unchanged (b : StoreBehavior) (st : Store) (sql : String) :
    (Database.raw b st sql).2.ledger = st.ledger := by
  unfold Database.raw
  split_ifs <;> rfl

theorem raw_execLog (b : StoreBehavior) (st : Store) (sql : String) :
    (Database.raw b st sql).2.execLog = st.execLog ++ Database.splitStatements sql := by
  unfold Database.raw
  split_ifs with h1 h2
  · rw [splitStatements_blank h1]
    simp
  · rfl
  · rfl

theorem raw_success_not_false (b : StoreBehavior) (st : Store) (sql : String)
    (h : b.execOk (Database.splitStatements sql) = true) :
    ¬ (Database.raw b st sql).1.success = some false := by
  unfold Database.raw
  split_ifs with h1 <;> simp

theorem sweep_foldl_length (b : StoreBehavior) :
    ∀ (schemas : List (String × String × String)) (acc : List MigOutcome × Store),
      (List.foldl (fun acc s =>
        let r := Migrator.applyMigration b acc.2 s.1 s.2.1 s.2.2
        (acc.1 ++ [r.1], r.2)) acc schemas).1.length = acc.1.length + schemas.length := by
  intro schemas
  induction schemas with
  | nil => intro acc; simp
  | cons s rest ih =>
    intro acc
    rw [List.foldl_cons, ih]
    simp
    omega

/-- Claim C1 (counterexample): the claim says the pair is inserted into the
ledger only after the executor reports success.  For a blank schema text
`Database.raw` returns early with `{count: 0, duration: 0}` — no `success`
field at all and no statement handed to the engine — yet `applyMigration`
(whose check is `success === false`) records the pair and reports SUCCESS,
even against an engine that fails every execution. -/
theorem applyMigration_claim_counterexample :
    (Migrator.applyMigration StoreBehavior.alwaysFail ⟨[], []⟩ "mod" "1" "").1 = MigOutcome.success "mod" "1" 0 ∧
    (Migrator.applyMigration StoreBehavior.alwaysFail ⟨[], []⟩ "mod" "1" "").2.ledger = [("mod", "1")] ∧
    (Migrator.applyMigration StoreBehavior.alwaysFail ⟨[], []⟩ "mod" "1" "").2.execLog = [] ∧
    ¬ (Database.raw StoreBehavior.alwaysFail ⟨[], []⟩ "").1.success = some true := by decide

/-- Claim C1 (amended): for every (slug, version) pair not yet in the ledger
and schema text whose statement batch the store executes successfully (and
with a working ledger INSERT), the first `applyMigration` reports SUCCESS,
appends the pair to the ledger and hands the schema statements to the store
exactly once; the second call reports SKIP and leaves the store untouched, so
the statements are executed exactly once across both calls.  The pair is
inserted only when execution does not report failure — for a blank schema
text nothing is executed and no failure is reported, so the pair is recorded
immediately. -/
theorem applyMigration_success_then_skip (b : StoreBehavior) (st : Store) (slug ver sql : String)
    (hfresh : (slug, ver) ∉ st.ledger)
    (hexec : b.execOk (Database.splitStatements sql) = true)
    (hins : b.insertOk = true) :
    (∃ d, (Migrator.applyMigration b st slug ver sql).1 = MigOutcome.success slug ver d) ∧
    (Migrator.applyMigration b st slug ver sql).2.ledger = st.ledger ++ [(slug, ver)] ∧
    (Migrator.applyMigration b st slug ver sql).2.execLog = st.execLog ++ Database.splitStatements sql ∧
    Migrator.applyMigration b (Migrator.applyMigration b st slug ver sql).2 slug ver sql =
      (MigOutcome.skip slug ver, (Migrator.applyMigration b st slug ver sql).2) ∧
    (∀ b2 st2, (slug, ver) ∉ st2.ledger →
      (Database.raw b2 st2 sql).1.success = some false →
      (Migrator.applyMigration b2 st2 slug ver sql).2.ledger = st2.ledger) := by
  have h1 : Migrator.applyMigration b st slug ver sql =
      (MigOutcome.success slug ver (Database.raw b st sql).1.duration,
        { (Database.raw b st sql).2 with ledger := (Database.raw b st sql).2.ledger ++ [(slug, ver)] }) := by
    unfold Migrator.applyMigration
    rw [if_neg (by simp [hfresh]), if_neg (raw_success_not_false b st sql hexec), if_pos (by simp [hins])]
  have hled : (Migrator.applyMigration b st slug ver sql).2.ledger = st.ledger ++ [(slug, ver)] := by
    rw [h1]
    simp [raw_ledger_unchanged]
  refine ⟨⟨(Database.raw b st sql).1.duration, by rw [h1]⟩, hled, ?_, ?_, ?_⟩
  · rw [h1]
    simp [raw_execLog]
  · conv_lhs => rw [Migrator.applyMigration]
    rw [if_pos (by rw [hled]; simp)]
  · intro b2 st2 hf2 hfail2
    unfold Migrator.applyMigration
    rw [if_neg (by simp [hf2]), if_pos hfail2]
    simp [raw_ledger_unchanged]

-- Witness for C1 (amended): a fresh pages-manager migration against a store
-- that executes everything successfully — the second run is a SKIP.
theorem applyMigration_success_then_skip_witness :
    Migrator.applyMigration StoreBehavior.alwaysOk
      (Migrator.applyMigration StoreBehavior.alwaysOk ⟨[], []⟩ "pages-manager" "1.0.2" "CREATE TABLE static_pages (id INTEGER)").2
      "pages-manager" "1.0.2" "CREATE TABLE static_pages (id INTEGER)" =
    (MigOutcome.skip "pages-manager" "1.0.2",
      (Migrator.applyMigration StoreBehavior.alwaysOk ⟨[], []⟩ "pages-manager" "1.0.2" "CREATE TABLE static_pages (id INTEGER)").2) :=
  (applyMigration_success_then_skip StoreBehavior.alwaysOk ⟨[], []⟩ "pages-manager" "1.0.2"
    "CREATE TABLE static_pages (id INTEGER)" (by decide) rfl rfl).2.2.2.1

/-- Claim C2: when the executor reports failure (`success = false`) for a
pair that is not yet applied, `applyMigration` answers an ERROR outcome, does
not insert the pair into the ledger (so a later run retries it), and — being
a total function whose every failure path is a caught branch — never throws;
the admin migration sweep collects exactly one outcome per registered schema
no matter which of them fail. -/
theorem applyMigration_failure_retryable (b : StoreBehavior) (st : Store) (slug ver sql : String)
    (hfresh : (slug, ver) ∉ st.ledger)
    (hfail : (Database.raw b st sql).1.success = some false) :
    (∃ msg, (Migrator.applyMigration b st slug ver sql).1 = MigOutcome.sqlError slug ver msg) ∧
    (Migrator.applyMigration b st slug ver sql).1.isError = true ∧
    (Migrator.applyMigration b st slug ver sql).2.ledger = st.ledger ∧
    (∀ b2 st2 schemas, (Migrator.sweep b2 st2 schemas).1.length = schemas.length) := by
  have h1 : Migrator.applyMigration b st slug ver sql =
      (MigOutcome.sqlError slug ver (((Database.raw b st sql).1.error).getD "Unknown error"),
        (Database.raw b st sql).2) := by
    unfold Migrator.applyMigration
    rw [if_neg (by simp [hfresh]), if_pos hfail]
  refine ⟨⟨_, by rw [h1]⟩, by rw [h1]; rfl, ?_, ?_⟩
  · rw [h1]
    exact raw_ledger_unchanged b st sql
  · intro b2 st2 schemas
    unfold Migrator.sweep
    rw [sweep_foldl_length]
    simp

-- Witness for C2: a failing blog-manager migration leaves the ledger empty.
theorem applyMigration_failure_retryable_witness :
    (Migrator.applyMigration StoreBehavior.alwaysFail ⟨[], []⟩ "blog-manager" "1.7.2" "CREATE TABLE blog_posts (id INTEGER)").2.ledger = [] :=
  (applyMigration_failure_retryable StoreBehavior.alwaysFail ⟨[], []⟩ "blog-manager" "1.7.2"
    "CREATE TABLE blog_posts (id INTEGER)" (by decide) (by decide)).2.2.1

/-- Claim C10: `Database.findOne` and `Database.findAll` convert every
underlying error into the not-found sentinel (`null` / empty list), so a
caller cannot distinguish a failed read from a read that matched no rows; in
particular the homepage route behaves identically whether its static-page
lookup throws or finds no row, so that lookup can never surface an
exception. -/
theorem findOne_findAll_never_throw :
    (∀ e : String, Database.findOne (α := PageRow) (Except.error e) = none) ∧
    (∀ e : String, Database.findAll (α := PageRow) (Except.error e) = []) ∧
    (∀ e : String, Database.findOne (α := PageRow) (Except.error e) = Database.findOne (Except.ok none)) ∧
    (∀ (sr : String → Except String (Option SettingsRow)) (e : String) (reg : RegistryState) (now : String) (yr : Nat),
      rootHandler ⟨sr, fun _ => Except.error e⟩ reg now yr =
      rootHandler ⟨sr, fun _ => Except.ok none⟩ reg now yr) :=
  ⟨fun _ => rfl, fun _ => rfl, fun _ => rfl, fun _ _ _ _ _ => rfl⟩


-- The response component of State D is the landing render against the
-- log-appended registry.
theorem stateD_res (reg : RegistryState) (now : String) (yr : Nat) (qs : List (String × List String)) :
    (stateD reg now yr qs).res =
      ViewEngine.render (Registry.log now "System Status: Rendering Default Landing Page." reg) "landing"
        (landingData (Registry.log now "System Status: Rendering Default Landing Page." reg)) yr := rfl

theorem render_never_redirect (st : RegistryState) (v : String) (data : List (String × String)) (yr : Nat) (loc : String) :
    ViewEngine.render st v data yr ≠ RouteResult.redirect loc := by
  unfold ViewEngine.render
  rcases hv : Registry.getView st v with _ | t <;> simp

/-- Claim C6: whenever the homepage-type settings read yields nothing —
`Database.findOne` answers `none` both when the read fails (e.g. the
`core_settings` table is absent on a fresh install) and when no such row
exists — the root route takes the default-landing branch (State D): it never
redirects, it issues only the two settings queries (the default-landing
branch itself performs no query), it renders the `landing` view with a data
bag whose `plugin_count` entry is the number of mounted plugins, and — the
handler being a total function whose fallback is this branch — no exception
propagates.  When a `landing` template is registered the response is an HTML
200. -/
theorem rootHandler_default_landing (o : DbOracle) (reg : RegistryState) (now : String) (yr : Nat)
    (h : Database.findOne (o.settingRaw qHomeType) = none) :
    rootHandler o reg now yr = stateD reg now yr [(qHomeType, []), (qHomeTarget, [])] ∧
    (rootHandler o reg now yr).queries = [(qHomeType, []), (qHomeTarget, [])] ∧
    bagLookup (landingData (Registry.log now "System Status: Rendering Default Landing Page." reg)) "plugin_count" =
      some (toString (Registry.getPluginCount reg)) ∧
    (∀ tpl, Registry.getView reg "landing" = some tpl →
      ∃ body, (rootHandler o reg now yr).res = RouteResult.html 200 body) ∧
    (∀ loc, (rootHandler o reg now yr).res ≠ RouteResult.redirect loc) := by
  have hmain : rootHandler o reg now yr = stateD reg now yr [(qHomeType, []), (qHomeTarget, [])] := by
    unfold rootHandler
    rw [h]
    simp
  have hview : ∀ v, Registry.getView (Registry.log now "System Status: Rendering Default Landing Page." reg) v =
      Registry.getView reg v := by
    intro v
    unfold Registry.getView Registry.log
    rfl
  refine ⟨hmain, by rw [hmain]; rfl, ?_, ?_, ?_⟩
  · unfold landingData bagLookup Registry.getPluginCount Registry.log
    simp
  · intro tpl htpl
    rw [hmain, stateD_res]
    unfold ViewEngine.render
    rw [hview, htpl]
    exact ⟨_, rfl⟩
  · intro loc
    rw [hmain, stateD_res]
    exact render_never_redirect _ _ _ _ _

-- Witness for C6: a fresh install — every settings read throws because the
-- table is absent — renders the landing view of the initial registry.
theorem rootHandler_default_landing_witness :
    (rootHandler
      ⟨fun _ => Except.error "D1_ERROR: no such table: core_settings", fun _ => Except.ok none⟩
      Registry.init "00:00:00" 2026).queries = [(qHomeType, []), (qHomeTarget, [])] :=
  (rootHandler_default_landing
    ⟨fun _ => Except.error "D1_ERROR: no such table: core_settings", fun _ => Except.ok none⟩
    Registry.init "00:00:00" 2026 rfl).2.1

-- --- String-replacement lemmas for the ViewEngine claim ---

theorem replAux_nil (pat rep : List Char) (n : Nat) : replAux pat rep n [] = [] := by
  cases n <;> rfl

theorem replAux_fuel (pat rep : List Char) :
    ∀ (fuel : Nat) (l : List Char) (n : Nat), l.length ≤ fuel → l.length ≤ n →
      replAux pat rep fuel l = replAux pat rep n l := by
  intro fuel
  induction fuel with
  | zero =>
    intro l n hf _
    rw [List.length_eq_zero.mp (Nat.le_zero.mp hf)]
    rw [replAux_nil, replAux_nil]
  | succ fuel ih =>
    intro l n hf hn
    cases l with
    | nil => rw [replAux_nil, replAux_nil]
    | cons c rest =>
      cases n with
      | zero => exact absurd hn (by simp)
      | succ m =>
        simp only [replAux]
        split
        · have h1 : (rest.drop (pat.length - 1)).length ≤ fuel := by
            rw [List.length_drop]
            simp at hf
            omega
          have h2 : (rest.drop (pat.length - 1)).length ≤ m := by
            rw [List.length_drop]
            simp at hn
            omega
          rw [ih _ m h1 h2]
        · have h1 : rest.length ≤ fuel := by simp at hf; omega
          have h2 : rest.length ≤ m := by simp at hn; omega
          rw [ih _ m h1 h2]

theorem replaceAll_cons_neg {pat : List Char} {c : Char} {l : List Char} (rep : List Char)
    (h : pat.isPrefixOf (c :: l) = false) :
    replaceAll pat rep (c :: l) = c :: replaceAll pat rep l := by
  unfold replaceAll
  show replAux pat rep (l.length + 1) (c :: l) = c :: replAux pat rep l.length l
  simp only [replAux, h]
  simp

theorem isPrefixOf_append_self : ∀ (pat l : List Char), pat.isPrefixOf (pat ++ l) = true := by
  intro pat
  induction pat with
  | nil => intro l; simp [List.isPrefixOf]
  | cons a pt ih => intro l; simp [List.isPrefixOf, ih]

theorem replaceAll_match {pat : List Char} (rep : List Char) (hp : pat ≠ []) (l : List Char) :
    replaceAll pat rep (pat ++ l) = rep ++ replaceAll pat rep l := by
  cases pat with
  | nil => exact absurd rfl hp
  | cons p pt =>
    have hc : (p :: pt).isPrefixOf (p :: (pt ++ l)) = true := isPrefixOf_append_self (p :: pt) l
    have hdrop : (pt ++ l).drop ((p :: pt).length - 1) = l := by
      simp only [List.length_cons, Nat.add_sub_cancel]
      exact List.drop_left pt l
    unfold replaceAll
    show replAux (p :: pt) rep ((pt ++ l).length + 1) (p :: (pt ++ l)) = rep ++ replAux (p :: pt) rep l.length l
    simp only [replAux, hc, if_true]
    rw [hdrop]
    rw [replAux_fuel (p :: pt) rep (pt ++ l).length l l.length (by simp) (Nat.le_refl _)]

theorem isPrefixOf_cons_ne {a c : Char} (pt l : List Char) (h : a ≠ c) :
    ((a :: pt).isPrefixOf (c :: l)) = false := by
  simp [List.isPrefixOf, h]

theorem replaceAll_seg_append (pat rep : List Char) (hpat : ∃ pt, pat = '{' :: pt) :
    ∀ (s : List Char), (∀ c ∈ s, c ≠ '{') → ∀ (l : List Char),
      replaceAll pat rep (s ++ l) = s ++ replaceAll pat rep l := by
  obtain ⟨pt, rfl⟩ := hpat
  intro s
  induction s with
  | nil => intro _ l; simp
  | cons c s2 ih =>
    intro hs l
    have hc : c ≠ '{' := hs c (by simp)
    rw [List.cons_append, replaceAll_cons_neg rep (isPrefixOf_cons_ne pt (s2 ++ l) (fun he => hc he.symm))]
    rw [ih (fun x hx => hs x (by simp [hx])) l]
    rfl

theorem key_notPrefix :
    ∀ (k k2 : List Char), (∀ c ∈ k, c ≠ '{' ∧ c ≠ '}') → (∀ c ∈ k2, c ≠ '{' ∧ c ≠ '}') → k ≠ k2 →
      ∀ (t : List Char), ((k ++ ['}', '}']).isPrefixOf (k2 ++ '}' :: '}' :: t)) = false := by
  intro k
  induction k with
  | nil =>
    intro k2 _ hk2 hne t
    cases k2 with
    | nil => exact absurd rfl hne
    | cons c k2t =>
      exact isPrefixOf_cons_ne _ _ (fun he => (hk2 c (by simp)).2 he.symm)
  | cons a kt ih =>
    intro k2 hk hk2 hne t
    cases k2 with
    | nil =>
      exact isPrefixOf_cons_ne _ _ (hk a (by simp)).2
    | cons c k2t =>
      by_cases hac : a = c
      · subst hac
        have hne2 : kt ≠ k2t := fun he => hne (by rw [he])
        show ((a :: (kt ++ ['}', '}'])).isPrefixOf (a :: (k2t ++ '}' :: '}' :: t))) = false
        simp only [List.isPrefixOf, beq_self_eq_true, Bool.true_and]
        exact ih k2t (fun x hx => hk x (by simp [hx])) (fun x hx => hk2 x (by simp [hx])) hne2 t
      · exact isPrefixOf_cons_ne _ _ hac

theorem ph_notPrefix {k k2 : List Char}
    (hk : ∀ c ∈ k, c ≠ '{' ∧ c ≠ '}') (hk2 : ∀ c ∈ k2, c ≠ '{' ∧ c ≠ '}') (hne : k ≠ k2) (t : List Char) :
    ((phPat k).isPrefixOf (phPat k2 ++ t)) = false := by
  show (('{' :: '{' :: (k ++ ['}', '}'])).isPrefixOf ('{' :: '{' :: ((k2 ++ ['}', '}']) ++ t))) = false
  simp only [List.isPrefixOf, beq_self_eq_true, Bool.true_and]
  have hassoc : (k2 ++ ['}', '}']) ++ t = k2 ++ '}' :: '}' :: t := by simp
  rw [hassoc]
  exact key_notPrefix k k2 hk hk2 hne t

theorem open_notPrefix (X : List Char) :
    ∀ (k2 : List Char), (∀ c ∈ k2, c ≠ '{') → ∀ (t : List Char),
      (('{' :: X).isPrefixOf (k2 ++ '}' :: '}' :: t)) = false := by
  intro k2 hk2 t
  cases k2 with
  | nil => exact isPrefixOf_cons_ne _ _ (by decide)
  | cons c k2t => exact isPrefixOf_cons_ne _ _ (fun he => hk2 c (by simp) he.symm)

theorem seg_no_open {k2 : List Char} (hk2 : ∀ c ∈ k2, c ≠ '{' ∧ c ≠ '}') :
    ∀ c ∈ k2 ++ ['}', '}'], c ≠ '{' := by
  intro c hc
  rcases List.mem_append.mp hc with h1 | h2
  · exact (hk2 c h1).1
  · have hc2 : c = '}' := by simpa using h2
    rw [hc2]
    decide

theorem replaceAll_ph_ne {k k2 : List Char}
    (hk : ∀ c ∈ k, c ≠ '{' ∧ c ≠ '}') (hk2 : ∀ c ∈ k2, c ≠ '{' ∧ c ≠ '}') (hne : k ≠ k2)
    (rep t : List Char) :
    replaceAll (phPat k) rep (phPat k2 ++ t) = phPat k2 ++ replaceAll (phPat k) rep t := by
  have hassoc : (k2 ++ ['}', '}']) ++ t = k2 ++ '}' :: '}' :: t := by simp
  have hstep1 : phPat k2 ++ t = '{' :: ('{' :: ((k2 ++ ['}', '}']) ++ t)) := by simp [phPat]
  have hpre1 : ((phPat k).isPrefixOf ('{' :: ('{' :: ((k2 ++ ['}', '}']) ++ t)))) = false := by
    rw [← hstep1]
    exact ph_notPrefix hk hk2 hne t
  have hpre2 : ((phPat k).isPrefixOf ('{' :: ((k2 ++ ['}', '}']) ++ t))) = false := by
    show (('{' :: ('{' :: (k ++ ['}', '}']))).isPrefixOf ('{' :: ((k2 ++ ['}', '}']) ++ t))) = false
    simp only [List.isPrefixOf, beq_self_eq_true, Bool.true_and]
    rw [hassoc]
    exact open_notPrefix (k ++ ['}', '}']) k2 (fun c hc => (hk2 c hc).1) t
  rw [hstep1]
  rw [replaceAll_cons_neg rep hpre1]
  rw [replaceAll_cons_neg rep hpre2]
  rw [replaceAll_seg_append (phPat k) rep ⟨'{' :: (k ++ ['}', '}']), rfl⟩ (k2 ++ ['}', '}']) (seg_no_open hk2) t]
  simp [phPat]

theorem string_data_inj {a b : String} (h : a.data = b.data) : a = b := by
  cases a
  cases b
  exact congrArg String.mk (by simpa using h)

theorem plainStr_mem {s : String} (h : plainStr s = true) : ∀ c ∈ s.data, c ≠ '{' ∧ c ≠ '}' := by
  intro c hc
  have h2 := List.all_eq_true.mp h c hc
  simp at h2
  exact h2

theorem ordinaryKey_plainStr {s : String} (h : ordinaryKey s = true) : plainStr s = true := by
  unfold ordinaryKey at h
  simp only [Bool.and_eq_true] at h
  unfold plainStr
  rw [List.all_eq_true]
  intro c hc
  have hcc : (c.isAlphanum || c == '_') = true := List.all_eq_true.mp h.1.2 c hc
  have h1 : c ≠ '{' := by rintro rfl; exact absurd hcc (by decide)
  have h2 : c ≠ '}' := by rintro rfl; exact absurd hcc (by decide)
  simp [h1, h2]

theorem plainVal_plainStr {s : String} (h : plainVal s = true) : plainStr s = true := by
  unfold plainVal at h
  unfold plainStr
  rw [List.all_eq_true] at h ⊢
  intro c hc
  have h2 := h c hc
  simp at h2 ⊢
  exact ⟨h2.1.1, h2.1.2⟩

theorem replaceAll_assemble (k v : String) (hk : plainStr k = true) (_hv : plainStr v = true) :
    ∀ parts : List TPart, PartsWF parts = true →
      replaceAll (phPat k.data) v.data (TPart.assemble parts) =
        TPart.assemble (parts.map (TPart.substOne k v)) := by
  intro parts
  induction parts with
  | nil => intro _; rfl
  | cons p rest ih =>
    intro hwf
    have hwfs : partWF p = true ∧ PartsWF rest = true := by
      unfold PartsWF at hwf ⊢
      simpa using hwf
    cases p with
    | lit s =>
      show replaceAll (phPat k.data) v.data (s.data ++ TPart.assemble rest) =
        s.data ++ TPart.assemble (rest.map (TPart.substOne k v))
      rw [replaceAll_seg_append (phPat k.data) v.data ⟨_, rfl⟩ s.data
        (fun c hc => (plainStr_mem hwfs.1 c hc).1) _]
      rw [ih hwfs.2]
    | ph k2 =>
      by_cases hkk : k2 = k
      · subst hkk
        show replaceAll (phPat k2.data) v.data (phPat k2.data ++ TPart.assemble rest) =
          TPart.assemble ((TPart.ph k2 :: rest).map (TPart.substOne k2 v))
        rw [replaceAll_match v.data (by simp [phPat]) (TPart.assemble rest)]
        rw [ih hwfs.2]
        simp [TPart.substOne, TPart.assemble]
      · have hkd : k.data ≠ k2.data := fun hd => hkk (string_data_inj hd).symm
        show replaceAll (phPat k.data) v.data (phPat k2.data ++ TPart.assemble rest) =
          TPart.assemble ((TPart.ph k2 :: rest).map (TPart.substOne k v))
        rw [replaceAll_ph_ne (plainStr_mem hk) (plainStr_mem hwfs.1) hkd v.data (TPart.assemble rest)]
        rw [ih hwfs.2]
        simp [TPart.substOne, TPart.assemble, hkk]

theorem substOne_wf_pt (k v : String) (hv : plainStr v = true) (p : TPart)
    (hp : partWF p = true) :
    partWF (TPart.substOne k v p) = true := by
  cases p with
  | lit s => exact hp
  | ph k2 =>
    unfold TPart.substOne
    by_cases hkk : k2 = k
    · simp [hkk, partWF, hv]
    · simp only [hkk, if_false, reduceIte]
      exact hp

theorem substOne_wf (k v : String) (hv : plainStr v = true) :
    ∀ parts : List TPart, PartsWF parts = true → PartsWF (parts.map (TPart.substOne k v)) = true := by
  intro parts h
  unfold PartsWF at h ⊢
  rw [List.all_map]
  rw [List.all_eq_true] at h ⊢
  intro p hp
  exact substOne_wf_pt k v hv p (h p hp)

theorem subst_cons_pt (k v : String) (bag : List (String × String)) (p : TPart) :
    TPart.subst bag (TPart.substOne k v p) = TPart.subst ((k, v) :: bag) p := by
  cases p with
  | lit s => rfl
  | ph k2 =>
    unfold TPart.substOne
    by_cases hkk : k2 = k
    · subst hkk
      simp [TPart.subst, bagLookup]
    · have hb : (k == k2) = false := by
        simp
        exact fun he => hkk he.symm
      simp [hkk, TPart.subst, bagLookup, List.find?, hb]

theorem subst_nil_map : ∀ parts : List TPart, parts.map (TPart.subst []) = parts := by
  intro parts
  induction parts with
  | nil => rfl
  | cons p rest ih => cases p <;> simp [TPart.subst, bagLookup, ih]

theorem renderTemplate_assemble :
    ∀ (bag : List (String × String)) (parts : List TPart), bagWF bag = true → PartsWF parts = true →
      ViewEngine.renderTemplate bag (TPart.assemble parts) = TPart.assemble (parts.map (TPart.subst bag)) := by
  intro bag
  induction bag with
  | nil =>
    intro parts _ _
    rw [subst_nil_map]
    rfl
  | cons kv bag ih =>
    obtain ⟨k, v⟩ := kv
    intro parts hbag hparts
    have hsplit : (ordinaryKey k && plainVal v) = true ∧ bagWF bag = true := by
      unfold bagWF at hbag ⊢
      simpa using hbag
    have hk : plainStr k = true := ordinaryKey_plainStr (Bool.and_eq_true_iff.mp hsplit.1).1
    have hv : plainStr v = true := plainVal_plainStr (Bool.and_eq_true_iff.mp hsplit.1).2
    show ViewEngine.renderTemplate bag (replaceAll (phPat k.data) v.data (TPart.assemble parts)) =
      TPart.assemble (parts.map (TPart.subst ((k, v) :: bag)))
    rw [replaceAll_assemble k v hk hv parts hparts]
    rw [ih _ hsplit.2 (substOne_wf k v hv parts hparts)]
    rw [List.map_map]
    congr 1
    apply List.map_congr_left
    intro p _
    exact subst_cons_pt k v bag p

/-- Claim C8 (counterexample): the claim says every placeholder of the
template is replaced by the corresponding value of the merged data bag and
that a key without a matching placeholder in the template has no effect.
Substitution is in fact sequential, one global pass per key in object order:
with a registered template whose only placeholder is the data key `a`, and
the value of `a` itself containing the placeholder of the later always-added
key `year`, the injected placeholder is substituted by a later pass, so the
output is the year — not the value of `a` as the claim requires. -/
theorem render_claim_counterexample :
    ViewEngine.render (Registry.registerView "v" "\x7b\x7ba\x7d\x7d" Registry.init) "v"
      [("a", "\x7b\x7byear\x7d\x7d")] 2026 = RouteResult.html 200 "2026" ∧
    "2026" ≠ "\x7b\x7byear\x7d\x7d" := by
  constructor
  · decide
  · decide

/-- Claim C8 (amended): for every resolvable view whose template decomposes
into brace-free literal segments and non-nested `\x7b\x7bkey\x7d\x7d`
placeholders, and for every data bag whose merged form (the data entries
followed by the always-present `theme_name` and `year` fields, which
overwrite data entries of those names) has word-character keys and values
free of braces and of `$`, `ViewEngine.render` answers an HTML 200 in which
every placeholder whose key is bound in the merged bag is replaced by that
key's value (the first binding, applied as one global pass per key in object
key order), every placeholder whose key is not in the merged bag is left
verbatim, the literal segments are untouched, and keys without a matching
placeholder have no effect.  When a substituted value itself contains a
later key's placeholder, that placeholder is substituted as well by the
later pass (sequential substitution), which is what the counterexample
exhibits. -/
theorem render_substitution (st : RegistryState) (viewName : String) (data : List (String × String))
    (year : Nat) (tpl : String) (parts : List TPart)
    (hres : Registry.getView st viewName = some tpl)
    (hdecomp : tpl.data = TPart.assemble parts)
    (hparts : PartsWF parts = true)
    (hbag : bagWF (ViewEngine.finalData data st.activeTheme year) = true) :
    ViewEngine.render st viewName data year =
      RouteResult.html 200 (String.mk (TPart.assemble
        (parts.map (TPart.subst (ViewEngine.finalData data st.activeTheme year))))) := by
  unfold ViewEngine.render
  simp only [hres]
  show RouteResult.html 200 (String.mk (ViewEngine.renderTemplate
    (ViewEngine.finalData data st.activeTheme year) tpl.data)) = _
  rw [hdecomp, renderTemplate_assemble (ViewEngine.finalData data st.activeTheme year) parts hbag hparts]

-- Witness for C8 (amended): a template with one bound and one unbound
-- placeholder; the bound one is substituted, the unbound one is verbatim.
theorem render_substitution_witness :
    ViewEngine.render
      (Registry.registerView "page_view" "<h1>\x7b\x7btitle\x7d\x7d</h1><p>\x7b\x7bmissing\x7d\x7d</p>" Registry.init)
      "page_view" [("title", "Hello")] 2026 =
      RouteResult.html 200 "<h1>Hello</h1><p>\x7b\x7bmissing\x7d\x7d</p>" :=
  (render_substitution
    (Registry.registerView "page_view" "<h1>\x7b\x7btitle\x7d\x7d</h1><p>\x7b\x7bmissing\x7d\x7d</p>" Registry.init)
    "page_view" [("title", "Hello")] 2026
    "<h1>\x7b\x7btitle\x7d\x7d</h1><p>\x7b\x7bmissing\x7d\x7d</p>"
    [TPart.lit "<h1>", TPart.ph "title", TPart.lit "</h1><p>", TPart.ph "missing", TPart.lit "</p>"]
    rfl (by decide) (by decide) (by decide)).trans (by decide)
